import Mathlib

/-!
Verification of the HoloCube motion-to-gesture classification engine
(`src/2.Firmware/Holo-fw/src/driver/imu.cpp` / `imu.h`).

Shallow embedding: the mutable `IMU` object (its `action_info` latch, the
five-slot action history ring buffer, the history write index, the
orientation `order` bitmask, `last_update_time`) together with the two
file-scope globals `encoder_diff` and `encoder_state` is modelled as the
record `IMUState`.  Reads of the physical MPU6050 (`mpu.getMotion6`) are
external inputs, so each entry point takes the raw six-axis sample(s) it
reads during its run as explicit parameters; `millis()` readings are
explicit `Nat` parameters.  `int16_t` negation is modelled with an explicit
wrap into `[-2^15, 2^15)`; the `int32_t` counter `encoder_diff` is modelled
as an unbounded `Int` (its overflow is undefined behaviour in C and outside
the claims considered here).
-/

namespace HoloCube

/-- The `ACTIVE_TYPE` enumeration of `imu.h` (UNKNOWN plays the role of the
spec's NONE, GO_FORWORD the role of FORWARD). -/
inductive ACTIVE_TYPE where
  | TURN_RIGHT
  | RETURN
  | TURN_LEFT
  | UP
  | DOWN
  | GO_FORWORD
  | SHAKE
  | UNKNOWN
deriving DecidableEq, Repr

/-- The LVGL input-device state used for `encoder_state` (`LV_INDEV_STATE_REL`
/ `LV_INDEV_STATE_PR`). -/
inductive LvIndevState where
  | REL
  | PR
deriving DecidableEq, Repr

/-- One six-axis sample: the `v_ax .. v_gz` payload carried by `ImuAction`
(equally, one raw `mpu.getMotion6` reading).  Values are `int16_t` in the
source, modelled as `Int`. -/
structure Motion6 where
  ax : Int
  ay : Int
  az : Int
  gx : Int
  gy : Int
  gz : Int
deriving DecidableEq, Repr

/-- Normalise an integer into the `int16_t` range `[-32768, 32767]`
(two's-complement wrap, as the target platform performs on conversion). -/
def wrap16 (n : Int) : Int :=
  (n + 32768) % 65536 - 32768

/-- `int16_t` negation: `x = -x` on an `int16_t` lvalue. -/
def neg16 (n : Int) : Int :=
  wrap16 (-n)

/-- `X_DIR_TYPE` flag of enum `MPU_DIR_TYPE` (imu.h). -/
def X_DIR_TYPE : Nat := 0x01

/-- `Y_DIR_TYPE` flag of enum `MPU_DIR_TYPE` (imu.h). -/
def Y_DIR_TYPE : Nat := 0x02

/-- `Z_DIR_TYPE` flag of enum `MPU_DIR_TYPE` (imu.h). -/
def Z_DIR_TYPE : Nat := 0x04

/-- `XY_DIR_TYPE` flag of enum `MPU_DIR_TYPE` (imu.h). -/
def XY_DIR_TYPE : Nat := 0x08

/-- `ACTION_HISTORY_BUF_LEN` (imu.h): capacity of the action history ring
buffer. -/
def ACTION_HISTORY_BUF_LEN : Nat := 5

/-- `IMU::getVirtureMotion6` (imu.cpp lines 309-346), as a function of the
`order` bitmask and the raw `mpu.getMotion6` reading: sequentially negates
the X, Y, Z axis pairs when the corresponding flag is set, then swaps the X
and Y accelerometer and gyroscope values when `XY_DIR_TYPE` is set. -/
def getVirtureMotion6 (order : Nat) (raw : Motion6) : Motion6 :=
  let m := raw
  let m := if order &&& X_DIR_TYPE ≠ 0 then
             { m with ax := neg16 m.ax, gx := neg16 m.gx } else m
  let m := if order &&& Y_DIR_TYPE ≠ 0 then
             { m with ay := neg16 m.ay, gy := neg16 m.gy } else m
  let m := if order &&& Z_DIR_TYPE ≠ 0 then
             { m with az := neg16 m.az, gz := neg16 m.gz } else m
  if order &&& XY_DIR_TYPE ≠ 0 then
    { m with ax := m.ay, ay := m.ax, gx := m.gy, gy := m.gx }
  else m

/-- Spec-side atomic step (§4.1, step 1): negate the X-axis accel/gyro pair
when invert-X is set. -/
def invertXStep (order : Nat) (m : Motion6) : Motion6 :=
  if order &&& X_DIR_TYPE ≠ 0 then { m with ax := neg16 m.ax, gx := neg16 m.gx } else m

/-- Spec-side atomic step (§4.1, step 2): negate the Y-axis accel/gyro pair
when invert-Y is set. -/
def invertYStep (order : Nat) (m : Motion6) : Motion6 :=
  if order &&& Y_DIR_TYPE ≠ 0 then { m with ay := neg16 m.ay, gy := neg16 m.gy } else m

/-- Spec-side atomic step (§4.1, step 3): negate the Z-axis accel/gyro pair
when invert-Z is set. -/
def invertZStep (order : Nat) (m : Motion6) : Motion6 :=
  if order &&& Z_DIR_TYPE ≠ 0 then { m with az := neg16 m.az, gz := neg16 m.gz } else m

/-- Spec-side atomic step (§4.1, step 4): exchange the (possibly already
negated) X and Y accel values and X and Y gyro values when swap-XY is set. -/
def swapXYStep (order : Nat) (m : Motion6) : Motion6 :=
  if order &&& XY_DIR_TYPE ≠ 0 then
    { m with ax := m.ay, ay := m.ax, gx := m.gy, gy := m.gx }
  else m

/-- The `ImuAction` structure of imu.h: detected motion type, validity latch,
`long_time` (sustained) flag, and the virtual motion payload `v_ax .. v_gz`
(gathered in the field `motion`). -/
structure ImuAction where
  active : ACTIVE_TYPE
  isValid : Bool
  long_time : Bool
  motion : Motion6
deriving DecidableEq, Repr

/-- The engine state: the `IMU` object's public mutable members plus the two
globals `encoder_diff` and `encoder_state` written by `IMU::update`. -/
structure IMUState where
  action_info : ImuAction
  act_info_history : Fin 5 → ACTIVE_TYPE
  act_info_history_ind : Nat
  order : Nat
  last_update_time : Nat
  encoder_diff : Int
  encoder_state : LvIndevState

/-- Reduce a C `int` index into the five-slot history array (every access in
the source is pre-reduced `% ACTION_HISTORY_BUF_LEN`, hence in range). -/
def idx (i : Nat) : Fin 5 :=
  ⟨i % 5, Nat.mod_lt i (by norm_num)⟩

/-- The instantaneous classification computed on `tmp_info` inside
`IMU::getAction` (imu.cpp lines 220-254): the rotation block on `tmp_info.v_ay`
runs first; if it leaves `tmp_info.active == UNKNOWN`, the linear block runs on
`tmp_info.v_ax` — except that its final SHAKE test (line 250) reads the member
`action_info.v_ax` (here `stored_ax`), not the fresh sample. -/
def getActionClassify (tmp : Motion6) (stored_ax : Int) : ACTIVE_TYPE :=
  let a :=
    if tmp.ay > 4000 then ACTIVE_TYPE.TURN_LEFT
    else if tmp.ay < -4000 then ACTIVE_TYPE.TURN_RIGHT
    else if tmp.ay > 1000 ∨ tmp.ay < -1000 then ACTIVE_TYPE.SHAKE
    else ACTIVE_TYPE.UNKNOWN
  if a = ACTIVE_TYPE.UNKNOWN then
    if tmp.ax > 5000 then ACTIVE_TYPE.UP
    else if tmp.ax < -5000 then ACTIVE_TYPE.DOWN
    else if stored_ax > 1000 ∨ stored_ax < -1000 then ACTIVE_TYPE.SHAKE
    else ACTIVE_TYPE.UNKNOWN
  else a

/-- `IMU::getAction` (imu.cpp lines 216-302).  `raw` is the `mpu.getMotion6`
reading taken into the local `tmp_info`.  The history buffer is advanced and
written unconditionally; the latch/promotion block runs only when
`action_info.isValid` is false on entry. -/
def getAction (s : IMUState) (raw : Motion6) : IMUState :=
  let tmp := getVirtureMotion6 s.order raw
  let tmpActive := getActionClassify tmp s.action_info.motion.ax
  let ind := (s.act_info_history_ind + 1) % ACTION_HISTORY_BUF_LEN
  let hist1 := Function.update s.act_info_history (idx ind) tmpActive
  let s1 := { s with act_info_history_ind := ind, act_info_history := hist1 }
  if !s.action_info.isValid then
    let second := (ind + ACTION_HISTORY_BUF_LEN - 1) % ACTION_HISTORY_BUF_LEN
    let third := (ind + ACTION_HISTORY_BUF_LEN - 2) % ACTION_HISTORY_BUF_LEN
    let ai1 := if tmpActive ≠ ACTIVE_TYPE.UNKNOWN then
                 { s.action_info with isValid := true, active := tmpActive }
               else s.action_info
    if hist1 (idx ind) = hist1 (idx second) ∧ hist1 (idx second) = hist1 (idx third) then
      if tmpActive = ACTIVE_TYPE.UP then
        { s1 with
          action_info := { ai1 with isValid := true, active := ACTIVE_TYPE.GO_FORWORD },
          act_info_history :=
            Function.update (Function.update hist1 (idx second) ACTIVE_TYPE.UNKNOWN)
              (idx third) ACTIVE_TYPE.UNKNOWN }
      else if tmpActive = ACTIVE_TYPE.DOWN then
        { s1 with
          action_info := { ai1 with isValid := true, active := ACTIVE_TYPE.RETURN },
          act_info_history :=
            Function.update (Function.update hist1 (idx second) ACTIVE_TYPE.UNKNOWN)
              (idx third) ACTIVE_TYPE.UNKNOWN }
      else { s1 with action_info := ai1 }
    else { s1 with action_info := ai1 }
  else s1

/-- `IMU::update` (imu.cpp lines 130-208).  `raw` is the `mpu.getMotion6`
reading taken into `action_info` at entry; `reraw` is the single re-sample
taken after the `delay(500)` confirmation wait inside the UP/DOWN branches;
`now` is the `millis()` reading used in the interval test at line 134 and
`now2` the (later) `millis()` reading stored into `last_update_time` at line
205.  `interval` is the debounce interval in milliseconds. -/
def update (s : IMUState) (raw reraw : Motion6) (now now2 interval : Nat) : IMUState :=
  let s0 := { s with action_info := { s.action_info with motion := getVirtureMotion6 s.order raw } }
  if now - s0.last_update_time > interval then
    let s1 :=
      if !s0.action_info.isValid then
        if s0.action_info.motion.ay > 4000 then
          { s0 with
            encoder_diff := s0.encoder_diff - 1,
            action_info := { s0.action_info with isValid := true, active := ACTIVE_TYPE.TURN_LEFT } }
        else if s0.action_info.motion.ay < -4000 then
          { s0 with
            encoder_diff := s0.encoder_diff + 1,
            action_info := { s0.action_info with isValid := true, active := ACTIVE_TYPE.TURN_RIGHT } }
        else if s0.action_info.motion.ay > 1000 ∨ s0.action_info.motion.ay < -1000 then
          { s0 with
            encoder_diff := s0.encoder_diff - 1,
            action_info := { s0.action_info with isValid := true, active := ACTIVE_TYPE.SHAKE } }
        else
          { s0 with action_info := { s0.action_info with isValid := false } }
      else s0
    let s2 :=
      if !s1.action_info.isValid then
        if s1.action_info.motion.ax > 5000 then
          let sa := { s1 with
            action_info := { s1.action_info with isValid := true, active := ACTIVE_TYPE.UP } }
          let sb := { sa with
            action_info := { sa.action_info with motion := getVirtureMotion6 sa.order reraw } }
          if sb.action_info.motion.ax > 5000 then
            { sb with
              action_info := { sb.action_info with isValid := true, active := ACTIVE_TYPE.GO_FORWORD },
              encoder_state := LvIndevState.PR }
          else sb
        else if s1.action_info.motion.ax < -5000 then
          let sa := { s1 with
            action_info := { s1.action_info with isValid := true, active := ACTIVE_TYPE.DOWN } }
          let sb := { sa with
            action_info := { sa.action_info with motion := getVirtureMotion6 sa.order reraw } }
          if sb.action_info.motion.ax < -5000 then
            { sb with
              action_info := { sb.action_info with isValid := true, active := ACTIVE_TYPE.RETURN },
              encoder_state := LvIndevState.REL }
          else sb
        else if s1.action_info.motion.ax > 1000 ∨ s1.action_info.motion.ax < -1000 then
          { s1 with
            action_info := { s1.action_info with isValid := true, active := ACTIVE_TYPE.SHAKE } }
        else
          { s1 with action_info := { s1.action_info with isValid := false } }
      else s1
    { s2 with last_update_time := now2 }
  else s0

/-- The `IMU::IMU` constructor (imu.cpp lines 26-40): `action_info` invalid
with `active = UNKNOWN` and `long_time = true`, all five history slots
`UNKNOWN`, write index `ACTION_HISTORY_BUF_LEN - 1`, `order = 0`.  The
constructor leaves the `v_ax .. v_gz` members of `action_info`
uninitialised, so their initial (indeterminate) content is the parameter
`g`; `last_update_time`, `encoder_diff` and `encoder_state` are
zero-initialised (global object / file-scope globals). -/
def IMU_ctor (g : Motion6) : IMUState :=
  { action_info :=
      { active := ACTIVE_TYPE.UNKNOWN, isValid := false, long_time := true, motion := g },
    act_info_history := fun _ => ACTIVE_TYPE.UNKNOWN,
    act_info_history_ind := ACTION_HISTORY_BUF_LEN - 1,
    order := 0,
    last_update_time := 0,
    encoder_diff := 0,
    encoder_state := LvIndevState.REL }

/-!  Shared concrete values used by counterexamples and witnesses. -/

/-- The all-zero six-axis sample. -/
def zero6 : Motion6 := ⟨0, 0, 0, 0, 0, 0⟩

/-- A sample with `ax = 5500` and every other axis zero (the spec's
end-to-end UP stimulus). -/
def sampUp : Motion6 := ⟨5500, 0, 0, 0, 0, 0⟩

/-!  Shared helper lemmas about `getAction`. -/

/-- Distinct residues mod 5 give distinct history indices. -/
theorem idx_ne {a b : Nat} (h : a % 5 ≠ b % 5) : idx a ≠ idx b :=
  fun hc => h (congrArg Fin.val hc)

/-- When the latch is set on entry, `getAction` only appends to the history
ring buffer: the returned state is `s` with the write index advanced and the
instantaneous classification written at it. -/
theorem getAction_of_valid (s : IMUState) (raw : Motion6)
    (h : s.action_info.isValid = true) :
    getAction s raw =
      { s with
        act_info_history_ind := (s.act_info_history_ind + 1) % ACTION_HISTORY_BUF_LEN,
        act_info_history := Function.update s.act_info_history
          (idx ((s.act_info_history_ind + 1) % ACTION_HISTORY_BUF_LEN))
          (getActionClassify (getVirtureMotion6 s.order raw) s.action_info.motion.ax) } := by
  unfold getAction
  simp [h]

/-- Every `getAction` call advances the history write index by one, mod the
buffer length. -/
theorem getAction_ind_step (s : IMUState) (raw : Motion6) :
    (getAction s raw).act_info_history_ind =
      (s.act_info_history_ind + 1) % ACTION_HISTORY_BUF_LEN := by
  unfold getAction
  dsimp only
  split_ifs <;> rfl

/-- Claim C5: for every raw sample and every orientation configuration,
`getVirtureMotion6` applies exactly these operations in this order: negate
X accel/gyro if invert-X is set, negate Y if invert-Y is set, negate Z if
invert-Z is set, and then, if swap-XY is set, exchange the (possibly
already-negated) X and Y accel values and X and Y gyro values — swapping
acts after inversion. -/
theorem C5_orientation_transform_order (order : Nat) (raw : Motion6) :
    getVirtureMotion6 order raw =
      swapXYStep order (invertZStep order (invertYStep order (invertXStep order raw))) := rfl

/-- A concrete engine state whose event latch is set (used as witness
input). -/
def latchedState : IMUState :=
  { IMU_ctor zero6 with
    action_info :=
      { active := ACTIVE_TYPE.TURN_LEFT, isValid := true, long_time := true, motion := zero6 } }

/-- Claim C6: once the latched `ImuAction` has `isValid = true`, a
`getAction` call — whatever instantaneous classification it computes,
including the sustained-promotion check — leaves the latched `action_info`
(kind, valid flag, and all other fields) unchanged; the engine never clears
`isValid` on its own. -/
theorem C6_latch_idempotent (s : IMUState) (raw : Motion6)
    (h : s.action_info.isValid = true) :
    (getAction s raw).action_info = s.action_info := by
  rw [getAction_of_valid s raw h]

/-- Witness for C6: a latched TURN_LEFT survives a `getAction` call whose
instantaneous classification is UP. -/
theorem C6_latch_idempotent_witness :
    latchedState.action_info.isValid = true ∧
    (getAction latchedState sampUp).action_info = latchedState.action_info :=
  ⟨rfl, C6_latch_idempotent latchedState sampUp rfl⟩

/-- Claim C7: every `getAction` call advances the ring-buffer write index by
exactly one slot modulo 5, regardless of the input and of the latch, so that
after exactly 5 calls the write index returns to its starting slot; and at
initialization every one of the 5 slots holds `UNKNOWN`. -/
theorem C7_ring_buffer_invariants (s : IMUState) (g r1 r2 r3 r4 r5 : Motion6)
    (h : s.act_info_history_ind < ACTION_HISTORY_BUF_LEN) :
    (∀ raw : Motion6, (getAction s raw).act_info_history_ind =
        (s.act_info_history_ind + 1) % ACTION_HISTORY_BUF_LEN) ∧
    (∀ j : Fin 5, (IMU_ctor g).act_info_history j = ACTIVE_TYPE.UNKNOWN) ∧
    (getAction (getAction (getAction (getAction (getAction s r1) r2) r3) r4) r5).act_info_history_ind
      = s.act_info_history_ind := by
  refine ⟨fun raw => getAction_ind_step s raw, fun j => rfl, ?_⟩
  rw [getAction_ind_step, getAction_ind_step, getAction_ind_step, getAction_ind_step,
    getAction_ind_step]
  unfold ACTION_HISTORY_BUF_LEN at *
  omega

/-- Witness for C7: five `getAction` calls from the freshly constructed
engine bring the write index back to its initial slot. -/
theorem C7_ring_buffer_invariants_witness :
    (getAction (getAction (getAction (getAction (getAction (IMU_ctor zero6) zero6) zero6) zero6)
        zero6) zero6).act_info_history_ind = (IMU_ctor zero6).act_info_history_ind :=
  (C7_ring_buffer_invariants (IMU_ctor zero6) zero6 zero6 zero6 zero6 zero6 zero6
    (by decide)).2.2

/-- Claim C10: a `getAction` call never modifies the encoder counter
`encoder_diff` or the press/release latch `encoder_state`, for every input
and every prior engine state — including when it performs a sustained
promotion. -/
theorem C10_getAction_preserves_encoder (s : IMUState) (raw : Motion6) :
    (getAction s raw).encoder_diff = s.encoder_diff ∧
    (getAction s raw).encoder_state = s.encoder_state := by
  unfold getAction
  dsimp only
  split_ifs <;> exact ⟨rfl, rfl⟩

/-- Spec-side classifier (§4.2 of the spec, and claim C1's cascade): the
fixed-priority threshold cascade evaluated entirely on the current sample,
including the linear-axis SHAKE test. -/
def specThresholdClassify (samp : Motion6) : ACTIVE_TYPE :=
  if samp.ay > 4000 then ACTIVE_TYPE.TURN_LEFT
  else if samp.ay < -4000 then ACTIVE_TYPE.TURN_RIGHT
  else if samp.ay > 1000 ∨ samp.ay < -1000 then ACTIVE_TYPE.SHAKE
  else if samp.ax > 5000 then ACTIVE_TYPE.UP
  else if samp.ax < -5000 then ACTIVE_TYPE.DOWN
  else if samp.ax > 1000 ∨ samp.ax < -1000 then ACTIVE_TYPE.SHAKE
  else ACTIVE_TYPE.UNKNOWN

/-- Amended spec-side classifier: as `specThresholdClassify`, but the final
linear SHAKE test reads the previously stored `action_info.v_ax`
(`stored_ax`) instead of the current sample, as imu.cpp line 250 does. -/
def specAmendedClassify (samp : Motion6) (stored_ax : Int) : ACTIVE_TYPE :=
  if samp.ay > 4000 then ACTIVE_TYPE.TURN_LEFT
  else if samp.ay < -4000 then ACTIVE_TYPE.TURN_RIGHT
  else if samp.ay > 1000 ∨ samp.ay < -1000 then ACTIVE_TYPE.SHAKE
  else if samp.ax > 5000 then ACTIVE_TYPE.UP
  else if samp.ax < -5000 then ACTIVE_TYPE.DOWN
  else if stored_ax > 1000 ∨ stored_ax < -1000 then ACTIVE_TYPE.SHAKE
  else ACTIVE_TYPE.UNKNOWN

/-- The two-block classification of `getAction` coincides with the linear
amended cascade. -/
theorem getActionClassify_eq_specAmended (tmp : Motion6) (stored : Int) :
    getActionClassify tmp stored = specAmendedClassify tmp stored := by
  unfold getActionClassify specAmendedClassify
  dsimp only
  split_ifs <;> simp_all

/-- The slot written by `getAction` (at the advanced write index) always
holds the instantaneous classification, also across the promotion branches
that scrub the two older slots. -/
theorem getAction_appends (s : IMUState) (raw : Motion6) :
    (getAction s raw).act_info_history
        (idx ((s.act_info_history_ind + 1) % ACTION_HISTORY_BUF_LEN)) =
      getActionClassify (getVirtureMotion6 s.order raw) s.action_info.motion.ax := by
  have h2 : idx ((s.act_info_history_ind + 1) % ACTION_HISTORY_BUF_LEN) ≠
      idx (((s.act_info_history_ind + 1) % ACTION_HISTORY_BUF_LEN + ACTION_HISTORY_BUF_LEN - 1) %
        ACTION_HISTORY_BUF_LEN) :=
    idx_ne (by unfold ACTION_HISTORY_BUF_LEN; omega)
  have h3 : idx ((s.act_info_history_ind + 1) % ACTION_HISTORY_BUF_LEN) ≠
      idx (((s.act_info_history_ind + 1) % ACTION_HISTORY_BUF_LEN + ACTION_HISTORY_BUF_LEN - 2) %
        ACTION_HISTORY_BUF_LEN) :=
    idx_ne (by unfold ACTION_HISTORY_BUF_LEN; omega)
  unfold getAction
  dsimp only
  split_ifs <;>
    simp [Function.update_same, Function.update_noteq h2, Function.update_noteq h3]

/-- Counterexample to claim C1: with a stored `action_info.v_ax` of 2000 and
a current sample that is all zero, `getAction` records SHAKE although the
claimed cascade on the current sample yields NONE — the linear SHAKE branch
is not decided by the current sample. -/
theorem C1_counterexample :
    (getAction (IMU_ctor ⟨2000, 0, 0, 0, 0, 0⟩) zero6).act_info_history (idx 0) ≠
      specThresholdClassify
        (getVirtureMotion6 (IMU_ctor ⟨2000, 0, 0, 0, 0, 0⟩).order zero6) := by
  decide

/-- Claim C1 (amended): the instantaneous classification recorded by
`getAction` follows the fixed-priority cascade with rotation (ay) before
linear (ax) — ay > 4000 TURN_LEFT, ay < -4000 TURN_RIGHT, |ay| > 1000 SHAKE,
ax > 5000 UP, ax < -5000 DOWN — except that the final linear SHAKE test
reads the previously stored `action_info.v_ax`, not the current sample. -/
theorem C1_amended_classification (s : IMUState) (raw : Motion6) :
    (getAction s raw).act_info_history
        (idx ((s.act_info_history_ind + 1) % ACTION_HISTORY_BUF_LEN)) =
      specAmendedClassify (getVirtureMotion6 s.order raw) s.action_info.motion.ax := by
  rw [getAction_appends, getActionClassify_eq_specAmended]

/-- Claim C2: when the event latch is false, after `getAction` appends the
current instantaneous classification: if the three most recent ring-buffer
slots (current `ind`, previous `second`, two-before `third`, indices mod 5)
hold the same value and the current classification is UP, the latched event
becomes GO_FORWORD with `isValid = true`; if DOWN, it becomes RETURN; and
exactly on such a promotion the two older of the three slots are reset to
UNKNOWN while the newest slot keeps its value and no other slot changes
(relative to the appended buffer); when no promotion fires, no slot is
scrubbed at all. -/
theorem C2_sustained_promotion (s : IMUState) (raw : Motion6) (inst : ACTIVE_TYPE)
    (ind second third : Nat)
    (hv : s.action_info.isValid = false)
    (hinst : inst = getActionClassify (getVirtureMotion6 s.order raw) s.action_info.motion.ax)
    (hind : ind = (s.act_info_history_ind + 1) % ACTION_HISTORY_BUF_LEN)
    (hsec : second = (ind + ACTION_HISTORY_BUF_LEN - 1) % ACTION_HISTORY_BUF_LEN)
    (hthd : third = (ind + ACTION_HISTORY_BUF_LEN - 2) % ACTION_HISTORY_BUF_LEN) :
    ((Function.update s.act_info_history (idx ind) inst (idx ind) =
        Function.update s.act_info_history (idx ind) inst (idx second) ∧
      Function.update s.act_info_history (idx ind) inst (idx second) =
        Function.update s.act_info_history (idx ind) inst (idx third)) →
      inst = ACTIVE_TYPE.UP →
      (getAction s raw).action_info.isValid = true ∧
      (getAction s raw).action_info.active = ACTIVE_TYPE.GO_FORWORD ∧
      (getAction s raw).act_info_history (idx second) = ACTIVE_TYPE.UNKNOWN ∧
      (getAction s raw).act_info_history (idx third) = ACTIVE_TYPE.UNKNOWN ∧
      (getAction s raw).act_info_history (idx ind) = inst ∧
      (∀ j : Fin 5, j ≠ idx second → j ≠ idx third →
        (getAction s raw).act_info_history j =
          Function.update s.act_info_history (idx ind) inst j)) ∧
    ((Function.update s.act_info_history (idx ind) inst (idx ind) =
        Function.update s.act_info_history (idx ind) inst (idx second) ∧
      Function.update s.act_info_history (idx ind) inst (idx second) =
        Function.update s.act_info_history (idx ind) inst (idx third)) →
      inst = ACTIVE_TYPE.DOWN →
      (getAction s raw).action_info.isValid = true ∧
      (getAction s raw).action_info.active = ACTIVE_TYPE.RETURN ∧
      (getAction s raw).act_info_history (idx second) = ACTIVE_TYPE.UNKNOWN ∧
      (getAction s raw).act_info_history (idx third) = ACTIVE_TYPE.UNKNOWN ∧
      (getAction s raw).act_info_history (idx ind) = inst ∧
      (∀ j : Fin 5, j ≠ idx second → j ≠ idx third →
        (getAction s raw).act_info_history j =
          Function.update s.act_info_history (idx ind) inst j)) ∧
    (¬ (Function.update s.act_info_history (idx ind) inst (idx ind) =
        Function.update s.act_info_history (idx ind) inst (idx second) ∧
      Function.update s.act_info_history (idx ind) inst (idx second) =
        Function.update s.act_info_history (idx ind) inst (idx third)) →
      ∀ j : Fin 5, (getAction s raw).act_info_history j =
        Function.update s.act_info_history (idx ind) inst j) ∧
    (inst ≠ ACTIVE_TYPE.UP → inst ≠ ACTIVE_TYPE.DOWN →
      ∀ j : Fin 5, (getAction s raw).act_info_history j =
        Function.update s.act_info_history (idx ind) inst j) := by
  have his : idx ind ≠ idx second := by
    subst hind hsec; exact idx_ne (by unfold ACTION_HISTORY_BUF_LEN; omega)
  have hit : idx ind ≠ idx third := by
    subst hind hthd; exact idx_ne (by unfold ACTION_HISTORY_BUF_LEN; omega)
  have hst : idx second ≠ idx third := by
    subst hind hsec hthd; exact idx_ne (by unfold ACTION_HISTORY_BUF_LEN; omega)
  subst hinst hind hsec hthd
  unfold getAction
  dsimp only
  simp only [hv, Bool.not_false, if_true]
  refine ⟨?_, ?_, ?_, ?_⟩
  · intro hsame hUP
    rw [if_pos hsame, if_pos hUP]
    refine ⟨rfl, rfl, ?_, ?_, ?_, ?_⟩
    · dsimp only
      rw [Function.update_noteq hst, Function.update_same]
    · dsimp only
      rw [Function.update_same]
    · dsimp only
      rw [Function.update_noteq hit, Function.update_noteq his, Function.update_same]
    · intro j hj2 hj3
      dsimp only
      rw [Function.update_noteq hj3, Function.update_noteq hj2]
  · intro hsame hDOWN
    rw [if_pos hsame, if_neg (by simp [hDOWN]), if_pos hDOWN]
    refine ⟨rfl, rfl, ?_, ?_, ?_, ?_⟩
    · dsimp only
      rw [Function.update_noteq hst, Function.update_same]
    · dsimp only
      rw [Function.update_same]
    · dsimp only
      rw [Function.update_noteq hit, Function.update_noteq his, Function.update_same]
    · intro j hj2 hj3
      dsimp only
      rw [Function.update_noteq hj3, Function.update_noteq hj2]
  · intro hns j
    rw [if_neg hns]
  · intro hnu hnd j
    by_cases hsame :
      Function.update s.act_info_history (idx ((s.act_info_history_ind + 1) %
          ACTION_HISTORY_BUF_LEN))
        (getActionClassify (getVirtureMotion6 s.order raw) s.action_info.motion.ax)
        (idx ((s.act_info_history_ind + 1) % ACTION_HISTORY_BUF_LEN)) =
      Function.update s.act_info_history (idx ((s.act_info_history_ind + 1) %
          ACTION_HISTORY_BUF_LEN))
        (getActionClassify (getVirtureMotion6 s.order raw) s.action_info.motion.ax)
        (idx (((s.act_info_history_ind + 1) % ACTION_HISTORY_BUF_LEN +
          ACTION_HISTORY_BUF_LEN - 1) % ACTION_HISTORY_BUF_LEN)) ∧
      Function.update s.act_info_history (idx ((s.act_info_history_ind + 1) %
          ACTION_HISTORY_BUF_LEN))
        (getActionClassify (getVirtureMotion6 s.order raw) s.action_info.motion.ax)
        (idx (((s.act_info_history_ind + 1) % ACTION_HISTORY_BUF_LEN +
          ACTION_HISTORY_BUF_LEN - 1) % ACTION_HISTORY_BUF_LEN)) =
      Function.update s.act_info_history (idx ((s.act_info_history_ind + 1) %
          ACTION_HISTORY_BUF_LEN))
        (getActionClassify (getVirtureMotion6 s.order raw) s.action_info.motion.ax)
        (idx (((s.act_info_history_ind + 1) % ACTION_HISTORY_BUF_LEN +
          ACTION_HISTORY_BUF_LEN - 2) % ACTION_HISTORY_BUF_LEN))
    · rw [if_pos hsame, if_neg hnu, if_neg hnd]
    · rw [if_neg hsame]

/-- A concrete engine state with an unlatched event, write index 1, and UP
already recorded in history slots 0 and 1 (witness input for the promotion
theorem). -/
def preUpState : IMUState :=
  { IMU_ctor zero6 with
    act_info_history :=
      Function.update (Function.update (fun _ => ACTIVE_TYPE.UNKNOWN) (idx 0) ACTIVE_TYPE.UP)
        (idx 1) ACTIVE_TYPE.UP,
    act_info_history_ind := 1 }

/-- Witness for C2: a third consecutive UP promotes the latch to GO_FORWORD
and scrubs the two older slots while the newest keeps UP. -/
theorem C2_sustained_promotion_witness :
    (getAction preUpState sampUp).action_info.isValid = true ∧
    (getAction preUpState sampUp).action_info.active = ACTIVE_TYPE.GO_FORWORD ∧
    (getAction preUpState sampUp).act_info_history (idx 1) = ACTIVE_TYPE.UNKNOWN ∧
    (getAction preUpState sampUp).act_info_history (idx 0) = ACTIVE_TYPE.UNKNOWN ∧
    (getAction preUpState sampUp).act_info_history (idx 2) = ACTIVE_TYPE.UP := by
  have h := C2_sustained_promotion preUpState sampUp ACTIVE_TYPE.UP 2 1 0 rfl
    (by decide) (by decide) (by decide) (by decide)
  obtain ⟨h1, h2, h3, h4, h5, -⟩ := h.1 (by decide) rfl
  exact ⟨h1, h2, h3, h4, h5⟩

/-- The engine state after three consecutive `getAction` calls with the
end-to-end UP stimulus, starting from the freshly constructed engine (with
the uninitialised `v_*` fields taken as zero). -/
def c3Final : IMUState :=
  getAction (getAction (getAction (IMU_ctor zero6) sampUp) sampUp) sampUp

/-- Counterexample to claim C3: after the three calls the latched event is
UP (latched by the first call, which blocks the promotion check of the later
calls), not GO_FORWORD, and none of the three history slots written was
reset to UNKNOWN. -/
theorem C3_counterexample :
    c3Final.action_info.active = ACTIVE_TYPE.UP ∧
    c3Final.action_info.active ≠ ACTIVE_TYPE.GO_FORWORD ∧
    c3Final.act_info_history (idx 0) = ACTIVE_TYPE.UP ∧
    c3Final.act_info_history (idx 1) = ACTIVE_TYPE.UP ∧
    c3Final.act_info_history (idx 2) = ACTIVE_TYPE.UP := by
  decide

/-- Claim C3 (amended): starting from the freshly constructed engine (any
indeterminate initial `v_*` content `g`), three `getAction` calls with
ay = 0, ax = 5500 latch the event UP with `isValid = true` and
`long_time = true` on the first call; the promotion path never fires, the
three written slots keep UP, the remaining two slots keep UNKNOWN, and the
write index ends at 2. -/
theorem C3_amended_three_up_calls (g : Motion6) :
    (getAction (getAction (getAction (IMU_ctor g) sampUp) sampUp) sampUp).action_info.active
        = ACTIVE_TYPE.UP ∧
    (getAction (getAction (getAction (IMU_ctor g) sampUp) sampUp) sampUp).action_info.isValid
        = true ∧
    (getAction (getAction (getAction (IMU_ctor g) sampUp) sampUp) sampUp).action_info.long_time
        = true ∧
    (getAction (getAction (getAction (IMU_ctor g) sampUp) sampUp) sampUp).act_info_history (idx 0)
        = ACTIVE_TYPE.UP ∧
    (getAction (getAction (getAction (IMU_ctor g) sampUp) sampUp) sampUp).act_info_history (idx 1)
        = ACTIVE_TYPE.UP ∧
    (getAction (getAction (getAction (IMU_ctor g) sampUp) sampUp) sampUp).act_info_history (idx 2)
        = ACTIVE_TYPE.UP ∧
    (getAction (getAction (getAction (IMU_ctor g) sampUp) sampUp) sampUp).act_info_history (idx 3)
        = ACTIVE_TYPE.UNKNOWN ∧
    (getAction (getAction (getAction (IMU_ctor g) sampUp) sampUp) sampUp).act_info_history (idx 4)
        = ACTIVE_TYPE.UNKNOWN ∧
    (getAction (getAction (getAction (IMU_ctor g) sampUp) sampUp) sampUp).act_info_history_ind
        = 2 :=
  by
  have hc : ∀ x : Int, getActionClassify sampUp x = ACTIVE_TYPE.UP := fun _ => rfl
  have hV : getVirtureMotion6 0 sampUp = sampUp := rfl
  simp +decide [getAction, IMU_ctor, ACTION_HISTORY_BUF_LEN, idx, hc, hV, Function.update]

/-- Counterexample to claim C4: a call made before the interval has elapsed
is not a no-op on all engine state — the virtual sample stored in
`action_info` is overwritten with the fresh reading (here ax: 0 becomes
123). -/
theorem C4_counterexample :
    (update (IMU_ctor zero6) ⟨123, 0, 0, 0, 0, 0⟩ zero6 0 0 50).action_info.motion.ax ≠
      (IMU_ctor zero6).action_info.motion.ax := by
  decide

/-- Claim C4 (amended): a `update(interval)` call made when `now` minus
`last_update_time` has not exceeded the interval re-reads the sensor and
overwrites the virtual sample in `action_info`, but performs no
reclassification and leaves everything else — the latched kind and valid
flag, `last_update_time`, the encoder counter, the press/release latch, and
the history buffer — unchanged; `last_update_time` is updated only on calls
where the interval has elapsed. -/
theorem C4_amended_not_elapsed (s : IMUState) (raw reraw : Motion6) (now now2 interval : Nat)
    (h : ¬ now - s.last_update_time > interval) :
    update s raw reraw now now2 interval =
      { s with action_info := { s.action_info with motion := getVirtureMotion6 s.order raw } } := by
  unfold update
  dsimp only
  rw [if_neg h]

/-- Witness for C4 (amended): concrete non-elapsed call. -/
theorem C4_amended_not_elapsed_witness :
    update (IMU_ctor zero6) ⟨123, 0, 0, 0, 0, 0⟩ zero6 0 0 50 =
      { IMU_ctor zero6 with
        action_info := { (IMU_ctor zero6).action_info with
          motion := getVirtureMotion6 (IMU_ctor zero6).order ⟨123, 0, 0, 0, 0, 0⟩ } } :=
  C4_amended_not_elapsed (IMU_ctor zero6) ⟨123, 0, 0, 0, 0, 0⟩ zero6 0 0 50 (by decide)

/-!  Branch characterizations of `IMU::update` on an elapsed interval with a
clear latch.  `getVirtureMotion6 s.order raw` is the virtual sample checked
first; `getVirtureMotion6 s.order reraw` is the confirmation re-sample taken
in the UP/DOWN branches. -/

/-- Elapsed, latch clear, `v_ay > 4000`: TURN_LEFT is latched and the
encoder counter decremented. -/
theorem update_rot_left (s : IMUState) (raw reraw : Motion6) (now now2 interval : Nat)
    (helapsed : now - s.last_update_time > interval)
    (hv : s.action_info.isValid = false)
    (hay : (getVirtureMotion6 s.order raw).ay > 4000) :
    update s raw reraw now now2 interval =
      { s with
        action_info :=
          { s.action_info with
            isValid := true
            active := ACTIVE_TYPE.TURN_LEFT
            motion := getVirtureMotion6 s.order raw }
        encoder_diff := s.encoder_diff - 1
        last_update_time := now2 } := by
  unfold update
  try dsimp only
  rw [if_pos helapsed]
  try simp only [hv, Bool.not_false, if_true]
  rw [if_pos hay]
  try dsimp only
  try rfl

/-- Elapsed, latch clear, `v_ay < -4000`: TURN_RIGHT is latched and the
encoder counter incremented. -/
theorem update_rot_right (s : IMUState) (raw reraw : Motion6) (now now2 interval : Nat)
    (helapsed : now - s.last_update_time > interval)
    (hv : s.action_info.isValid = false)
    (hay1 : ¬ (getVirtureMotion6 s.order raw).ay > 4000)
    (hay2 : (getVirtureMotion6 s.order raw).ay < -4000) :
    update s raw reraw now now2 interval =
      { s with
        action_info :=
          { s.action_info with
            isValid := true
            active := ACTIVE_TYPE.TURN_RIGHT
            motion := getVirtureMotion6 s.order raw }
        encoder_diff := s.encoder_diff + 1
        last_update_time := now2 } := by
  unfold update
  try dsimp only
  rw [if_pos helapsed]
  try simp only [hv, Bool.not_false, if_true]
  rw [if_neg hay1, if_pos hay2]
  try dsimp only
  try rfl

/-- Elapsed, latch clear, rotation SHAKE (`|v_ay| > 1000` only): SHAKE is
latched and the encoder counter decremented. -/
theorem update_rot_shake (s : IMUState) (raw reraw : Motion6) (now now2 interval : Nat)
    (helapsed : now - s.last_update_time > interval)
    (hv : s.action_info.isValid = false)
    (hay1 : ¬ (getVirtureMotion6 s.order raw).ay > 4000)
    (hay2 : ¬ (getVirtureMotion6 s.order raw).ay < -4000)
    (hsh : (getVirtureMotion6 s.order raw).ay > 1000 ∨ (getVirtureMotion6 s.order raw).ay < -1000) :
    update s raw reraw now now2 interval =
      { s with
        action_info :=
          { s.action_info with
            isValid := true
            active := ACTIVE_TYPE.SHAKE
            motion := getVirtureMotion6 s.order raw }
        encoder_diff := s.encoder_diff - 1
        last_update_time := now2 } := by
  unfold update
  try dsimp only
  rw [if_pos helapsed]
  try simp only [hv, Bool.not_false, if_true]
  rw [if_neg hay1, if_neg hay2, if_pos hsh]
  try dsimp only
  try rfl

/-- Elapsed, latch clear, no rotation match, `v_ax > 5000` and the re-sample
confirms: GO_FORWORD is latched and the press latch set to pressed. -/
theorem update_up_confirm (s : IMUState) (raw reraw : Motion6) (now now2 interval : Nat)
    (helapsed : now - s.last_update_time > interval)
    (hv : s.action_info.isValid = false)
    (hay1 : ¬ (getVirtureMotion6 s.order raw).ay > 4000)
    (hay2 : ¬ (getVirtureMotion6 s.order raw).ay < -4000)
    (hsh : ¬ ((getVirtureMotion6 s.order raw).ay > 1000 ∨ (getVirtureMotion6 s.order raw).ay < -1000))
    (hax : (getVirtureMotion6 s.order raw).ax > 5000)
    (hre : (getVirtureMotion6 s.order reraw).ax > 5000) :
    update s raw reraw now now2 interval =
      { s with
        action_info :=
          { s.action_info with
            isValid := true
            active := ACTIVE_TYPE.GO_FORWORD
            motion := getVirtureMotion6 s.order reraw }
        encoder_state := LvIndevState.PR
        last_update_time := now2 } := by
  unfold update
  try dsimp only
  rw [if_pos helapsed]
  try simp only [hv, Bool.not_false, if_true]
  rw [if_neg hay1, if_neg hay2, if_neg hsh]
  try dsimp only
  try simp only [Bool.not_false, if_true]
  rw [if_pos hax]
  try dsimp only
  rw [if_pos hre]
  try dsimp only
  try rfl

/-- Elapsed, latch clear, no rotation match, `v_ax > 5000` but the re-sample
does not confirm: UP stays latched and the press latch is untouched. -/
theorem update_up_unconfirm (s : IMUState) (raw reraw : Motion6) (now now2 interval : Nat)
    (helapsed : now - s.last_update_time > interval)
    (hv : s.action_info.isValid = false)
    (hay1 : ¬ (getVirtureMotion6 s.order raw).ay > 4000)
    (hay2 : ¬ (getVirtureMotion6 s.order raw).ay < -4000)
    (hsh : ¬ ((getVirtureMotion6 s.order raw).ay > 1000 ∨ (getVirtureMotion6 s.order raw).ay < -1000))
    (hax : (getVirtureMotion6 s.order raw).ax > 5000)
    (hre : ¬ (getVirtureMotion6 s.order reraw).ax > 5000) :
    update s raw reraw now now2 interval =
      { s with
        action_info :=
          { s.action_info with
            isValid := true
            active := ACTIVE_TYPE.UP
            motion := getVirtureMotion6 s.order reraw }
        last_update_time := now2 } := by
  unfold update
  try dsimp only
  rw [if_pos helapsed]
  try simp only [hv, Bool.not_false, if_true]
  rw [if_neg hay1, if_neg hay2, if_neg hsh]
  try dsimp only
  try simp only [Bool.not_false, if_true]
  rw [if_pos hax]
  try dsimp only
  rw [if_neg hre]
  try dsimp only
  try rfl

/-- Elapsed, latch clear, no rotation match, `v_ax < -5000` and the
re-sample confirms: RETURN is latched and the press latch set to released. -/
theorem update_down_confirm (s : IMUState) (raw reraw : Motion6) (now now2 interval : Nat)
    (helapsed : now - s.last_update_time > interval)
    (hv : s.action_info.isValid = false)
    (hay1 : ¬ (getVirtureMotion6 s.order raw).ay > 4000)
    (hay2 : ¬ (getVirtureMotion6 s.order raw).ay < -4000)
    (hsh : ¬ ((getVirtureMotion6 s.order raw).ay > 1000 ∨ (getVirtureMotion6 s.order raw).ay < -1000))
    (hax1 : ¬ (getVirtureMotion6 s.order raw).ax > 5000)
    (hax2 : (getVirtureMotion6 s.order raw).ax < -5000)
    (hre : (getVirtureMotion6 s.order reraw).ax < -5000) :
    update s raw reraw now now2 interval =
      { s with
        action_info :=
          { s.action_info with
            isValid := true
            active := ACTIVE_TYPE.RETURN
            motion := getVirtureMotion6 s.order reraw }
        encoder_state := LvIndevState.REL
        last_update_time := now2 } := by
  unfold update
  try dsimp only
  rw [if_pos helapsed]
  try simp only [hv, Bool.not_false, if_true]
  rw [if_neg hay1, if_neg hay2, if_neg hsh]
  try dsimp only
  try simp only [Bool.not_false, if_true]
  rw [if_neg hax1, if_pos hax2]
  try dsimp only
  rw [if_pos hre]
  try dsimp only
  try rfl

/-- Elapsed, latch clear, no rotation match, `v_ax < -5000` but the
re-sample does not confirm: DOWN stays latched and the press latch is
untouched. -/
theorem update_down_unconfirm (s : IMUState) (raw reraw : Motion6) (now now2 interval : Nat)
    (helapsed : now - s.last_update_time > interval)
    (hv : s.action_info.isValid = false)
    (hay1 : ¬ (getVirtureMotion6 s.order raw).ay > 4000)
    (hay2 : ¬ (getVirtureMotion6 s.order raw).ay < -4000)
    (hsh : ¬ ((getVirtureMotion6 s.order raw).ay > 1000 ∨ (getVirtureMotion6 s.order raw).ay < -1000))
    (hax1 : ¬ (getVirtureMotion6 s.order raw).ax > 5000)
    (hax2 : (getVirtureMotion6 s.order raw).ax < -5000)
    (hre : ¬ (getVirtureMotion6 s.order reraw).ax < -5000) :
    update s raw reraw now now2 interval =
      { s with
        action_info :=
          { s.action_info with
            isValid := true
            active := ACTIVE_TYPE.DOWN
            motion := getVirtureMotion6 s.order reraw }
        last_update_time := now2 } := by
  unfold update
  try dsimp only
  rw [if_pos helapsed]
  try simp only [hv, Bool.not_false, if_true]
  rw [if_neg hay1, if_neg hay2, if_neg hsh]
  try dsimp only
  try simp only [Bool.not_false, if_true]
  rw [if_neg hax1, if_pos hax2]
  try dsimp only
  rw [if_neg hre]
  try dsimp only
  try rfl

/-- Elapsed, latch clear, no rotation match, linear SHAKE
(`|v_ax| > 1000` only): SHAKE is latched with no encoder side effect. -/
theorem update_linear_shake (s : IMUState) (raw reraw : Motion6) (now now2 interval : Nat)
    (helapsed : now - s.last_update_time > interval)
    (hv : s.action_info.isValid = false)
    (hay1 : ¬ (getVirtureMotion6 s.order raw).ay > 4000)
    (hay2 : ¬ (getVirtureMotion6 s.order raw).ay < -4000)
    (hsh : ¬ ((getVirtureMotion6 s.order raw).ay > 1000 ∨ (getVirtureMotion6 s.order raw).ay < -1000))
    (hax1 : ¬ (getVirtureMotion6 s.order raw).ax > 5000)
    (hax2 : ¬ (getVirtureMotion6 s.order raw).ax < -5000)
    (hsh2 : (getVirtureMotion6 s.order raw).ax > 1000 ∨ (getVirtureMotion6 s.order raw).ax < -1000) :
    update s raw reraw now now2 interval =
      { s with
        action_info :=
          { s.action_info with
            isValid := true
            active := ACTIVE_TYPE.SHAKE
            motion := getVirtureMotion6 s.order raw }
        last_update_time := now2 } := by
  unfold update
  try dsimp only
  rw [if_pos helapsed]
  try simp only [hv, Bool.not_false, if_true]
  rw [if_neg hay1, if_neg hay2, if_neg hsh]
  try dsimp only
  try simp only [Bool.not_false, if_true]
  rw [if_neg hax1, if_neg hax2, if_pos hsh2]
  try dsimp only
  try rfl

/-- Elapsed, latch clear, below every threshold: nothing is latched and
neither encoder output changes. -/
theorem update_linear_none (s : IMUState) (raw reraw : Motion6) (now now2 interval : Nat)
    (helapsed : now - s.last_update_time > interval)
    (hv : s.action_info.isValid = false)
    (hay1 : ¬ (getVirtureMotion6 s.order raw).ay > 4000)
    (hay2 : ¬ (getVirtureMotion6 s.order raw).ay < -4000)
    (hsh : ¬ ((getVirtureMotion6 s.order raw).ay > 1000 ∨ (getVirtureMotion6 s.order raw).ay < -1000))
    (hax1 : ¬ (getVirtureMotion6 s.order raw).ax > 5000)
    (hax2 : ¬ (getVirtureMotion6 s.order raw).ax < -5000)
    (hsh2 : ¬ ((getVirtureMotion6 s.order raw).ax > 1000 ∨ (getVirtureMotion6 s.order raw).ax < -1000)) :
    update s raw reraw now now2 interval =
      { s with
        action_info :=
          { s.action_info with
            isValid := false
            motion := getVirtureMotion6 s.order raw }
        last_update_time := now2 } := by
  unfold update
  try dsimp only
  rw [if_pos helapsed]
  try simp only [hv, Bool.not_false, if_true]
  rw [if_neg hay1, if_neg hay2, if_neg hsh]
  try dsimp only
  try simp only [Bool.not_false, if_true]
  rw [if_neg hax1, if_neg hax2, if_neg hsh2]
  try dsimp only
  try rfl

/-- Claim C8: in `update`, when the interval has elapsed, the latch is
clear and no rotation branch matched: `v_ax > 5000` latches UP, one
re-sample is taken (after the bounded confirmation wait), and the kind
becomes GO_FORWORD with the press latch set to pressed exactly when the
re-sampled `v_ax` is also > 5000 (otherwise UP stays and the press latch is
untouched); symmetrically, `v_ax < -5000` latches DOWN, becoming RETURN with
the press latch set to released exactly when the re-sampled `v_ax` is also
< -5000. -/
theorem C8_linear_confirmation (s : IMUState) (raw reraw : Motion6) (now now2 interval : Nat)
    (helapsed : now - s.last_update_time > interval)
    (hv : s.action_info.isValid = false)
    (hay1 : ¬ (getVirtureMotion6 s.order raw).ay > 4000)
    (hay2 : ¬ (getVirtureMotion6 s.order raw).ay < -4000)
    (hsh : ¬ ((getVirtureMotion6 s.order raw).ay > 1000 ∨ (getVirtureMotion6 s.order raw).ay < -1000)) :
    ((getVirtureMotion6 s.order raw).ax > 5000 →
      ((getVirtureMotion6 s.order reraw).ax > 5000 →
        (update s raw reraw now now2 interval).action_info.isValid = true ∧
        (update s raw reraw now now2 interval).action_info.active = ACTIVE_TYPE.GO_FORWORD ∧
        (update s raw reraw now now2 interval).encoder_state = LvIndevState.PR) ∧
      (¬ (getVirtureMotion6 s.order reraw).ax > 5000 →
        (update s raw reraw now now2 interval).action_info.isValid = true ∧
        (update s raw reraw now now2 interval).action_info.active = ACTIVE_TYPE.UP ∧
        (update s raw reraw now now2 interval).encoder_state = s.encoder_state)) ∧
    ((getVirtureMotion6 s.order raw).ax < -5000 →
      ((getVirtureMotion6 s.order reraw).ax < -5000 →
        (update s raw reraw now now2 interval).action_info.isValid = true ∧
        (update s raw reraw now now2 interval).action_info.active = ACTIVE_TYPE.RETURN ∧
        (update s raw reraw now now2 interval).encoder_state = LvIndevState.REL) ∧
      (¬ (getVirtureMotion6 s.order reraw).ax < -5000 →
        (update s raw reraw now now2 interval).action_info.isValid = true ∧
        (update s raw reraw now now2 interval).action_info.active = ACTIVE_TYPE.DOWN ∧
        (update s raw reraw now now2 interval).encoder_state = s.encoder_state)) := by
  constructor
  · intro hax
    constructor
    · intro hre
      rw [update_up_confirm s raw reraw now now2 interval helapsed hv hay1 hay2 hsh hax hre]
      exact ⟨rfl, rfl, rfl⟩
    · intro hre
      rw [update_up_unconfirm s raw reraw now now2 interval helapsed hv hay1 hay2 hsh hax hre]
      exact ⟨rfl, rfl, rfl⟩
  · intro hax2
    have hax1 : ¬ (getVirtureMotion6 s.order raw).ax > 5000 := by omega
    constructor
    · intro hre
      rw [update_down_confirm s raw reraw now now2 interval helapsed hv hay1 hay2 hsh hax1 hax2
        hre]
      exact ⟨rfl, rfl, rfl⟩
    · intro hre
      rw [update_down_unconfirm s raw reraw now now2 interval helapsed hv hay1 hay2 hsh hax1 hax2
        hre]
      exact ⟨rfl, rfl, rfl⟩

/-- Witness for C8: with a clear latch and ax = 5500 in both the sample and
the re-sample, GO_FORWORD is latched and the press latch reads pressed. -/
theorem C8_linear_confirmation_witness :
    (update (IMU_ctor zero6) sampUp sampUp 100 150 50).action_info.isValid = true ∧
    (update (IMU_ctor zero6) sampUp sampUp 100 150 50).action_info.active =
      ACTIVE_TYPE.GO_FORWORD ∧
    (update (IMU_ctor zero6) sampUp sampUp 100 150 50).encoder_state = LvIndevState.PR := by
  have h := C8_linear_confirmation (IMU_ctor zero6) sampUp sampUp 100 150 50 (by decide) rfl
    (by decide) (by decide) (by decide)
  exact (h.1 (by decide)).1 (by decide)

/-- Claim C9: in `update`, when the interval has elapsed and the latch is
clear: TURN_LEFT decrements the encoder counter by 1, TURN_RIGHT increments
it by 1, a rotation-branch SHAKE decrements it by 1, a confirmed GO_FORWORD
sets the press latch to pressed, a confirmed RETURN sets it to released, and
every other outcome (unconfirmed UP or DOWN, the linear-branch SHAKE, and no
gesture) leaves both the counter and the press latch unchanged. -/
theorem C9_encoder_bridge (s : IMUState) (raw reraw : Motion6) (now now2 interval : Nat)
    (helapsed : now - s.last_update_time > interval)
    (hv : s.action_info.isValid = false) :
    ((getVirtureMotion6 s.order raw).ay > 4000 →
      (update s raw reraw now now2 interval).encoder_diff = s.encoder_diff - 1 ∧
      (update s raw reraw now now2 interval).encoder_state = s.encoder_state) ∧
    (¬ (getVirtureMotion6 s.order raw).ay > 4000 →
      (getVirtureMotion6 s.order raw).ay < -4000 →
      (update s raw reraw now now2 interval).encoder_diff = s.encoder_diff + 1 ∧
      (update s raw reraw now now2 interval).encoder_state = s.encoder_state) ∧
    (¬ (getVirtureMotion6 s.order raw).ay > 4000 →
      ¬ (getVirtureMotion6 s.order raw).ay < -4000 →
      ((getVirtureMotion6 s.order raw).ay > 1000 ∨ (getVirtureMotion6 s.order raw).ay < -1000) →
      (update s raw reraw now now2 interval).encoder_diff = s.encoder_diff - 1 ∧
      (update s raw reraw now now2 interval).encoder_state = s.encoder_state) ∧
    (¬ (getVirtureMotion6 s.order raw).ay > 4000 →
      ¬ (getVirtureMotion6 s.order raw).ay < -4000 →
      ¬ ((getVirtureMotion6 s.order raw).ay > 1000 ∨ (getVirtureMotion6 s.order raw).ay < -1000) →
      ((getVirtureMotion6 s.order raw).ax > 5000 →
        ((getVirtureMotion6 s.order reraw).ax > 5000 →
          (update s raw reraw now now2 interval).encoder_state = LvIndevState.PR ∧
          (update s raw reraw now now2 interval).encoder_diff = s.encoder_diff) ∧
        (¬ (getVirtureMotion6 s.order reraw).ax > 5000 →
          (update s raw reraw now now2 interval).encoder_diff = s.encoder_diff ∧
          (update s raw reraw now now2 interval).encoder_state = s.encoder_state)) ∧
      ((getVirtureMotion6 s.order raw).ax < -5000 →
        ((getVirtureMotion6 s.order reraw).ax < -5000 →
          (update s raw reraw now now2 interval).encoder_state = LvIndevState.REL ∧
          (update s raw reraw now now2 interval).encoder_diff = s.encoder_diff) ∧
        (¬ (getVirtureMotion6 s.order reraw).ax < -5000 →
          (update s raw reraw now now2 interval).encoder_diff = s.encoder_diff ∧
          (update s raw reraw now now2 interval).encoder_state = s.encoder_state)) ∧
      (¬ (getVirtureMotion6 s.order raw).ax > 5000 →
        ¬ (getVirtureMotion6 s.order raw).ax < -5000 →
        (update s raw reraw now now2 interval).encoder_diff = s.encoder_diff ∧
        (update s raw reraw now now2 interval).encoder_state = s.encoder_state)) := by
  refine ⟨?_, ?_, ?_, ?_⟩
  · intro hay
    rw [update_rot_left s raw reraw now now2 interval helapsed hv hay]
    exact ⟨rfl, rfl⟩
  · intro hay1 hay2
    rw [update_rot_right s raw reraw now now2 interval helapsed hv hay1 hay2]
    exact ⟨rfl, rfl⟩
  · intro hay1 hay2 hsh
    rw [update_rot_shake s raw reraw now now2 interval helapsed hv hay1 hay2 hsh]
    exact ⟨rfl, rfl⟩
  · intro hay1 hay2 hsh
    refine ⟨?_, ?_, ?_⟩
    · intro hax
      constructor
      · intro hre
        rw [update_up_confirm s raw reraw now now2 interval helapsed hv hay1 hay2 hsh hax hre]
        exact ⟨rfl, rfl⟩
      · intro hre
        rw [update_up_unconfirm s raw reraw now now2 interval helapsed hv hay1 hay2 hsh hax hre]
        exact ⟨rfl, rfl⟩
    · intro hax2
      have hax1 : ¬ (getVirtureMotion6 s.order raw).ax > 5000 := by omega
      constructor
      · intro hre
        rw [update_down_confirm s raw reraw now now2 interval helapsed hv hay1 hay2 hsh hax1 hax2
          hre]
        exact ⟨rfl, rfl⟩
      · intro hre
        rw [update_down_unconfirm s raw reraw now now2 interval helapsed hv hay1 hay2 hsh hax1
          hax2 hre]
        exact ⟨rfl, rfl⟩
    · intro hax1 hax2
      by_cases hsh2 :
        (getVirtureMotion6 s.order raw).ax > 1000 ∨ (getVirtureMotion6 s.order raw).ax < -1000
      · rw [update_linear_shake s raw reraw now now2 interval helapsed hv hay1 hay2 hsh hax1 hax2
          hsh2]
        exact ⟨rfl, rfl⟩
      · rw [update_linear_none s raw reraw now now2 interval helapsed hv hay1 hay2 hsh hax1 hax2
          hsh2]
        exact ⟨rfl, rfl⟩

/-- A sample with `ay = 4500` (rotation TURN_LEFT stimulus). -/
def sampLeft : Motion6 := ⟨0, 4500, 0, 0, 0, 0⟩

/-- Witness for C9: a TURN_LEFT classification decrements the encoder
counter by exactly 1 and leaves the press latch unchanged. -/
theorem C9_encoder_bridge_witness :
    (update (IMU_ctor zero6) sampLeft zero6 100 150 50).encoder_diff =
      (IMU_ctor zero6).encoder_diff - 1 ∧
    (update (IMU_ctor zero6) sampLeft zero6 100 150 50).encoder_state =
      (IMU_ctor zero6).encoder_state := by
  have h := C9_encoder_bridge (IMU_ctor zero6) sampLeft zero6 100 150 50 (by decide) rfl
  exact h.1 (by decide)

end HoloCube
